import Mathlib

/-!
Shallow embedding of the dkn-compute-node task-dispatch core: the data model
(models, providers, task payloads, node state), the request-response handlers
(`handle_reqres`, `handle_task_request`, `send_task_output`), the heartbeat
acknowledgement handler (`handle_ack`), the liveness status derivation and the
RPC liveness refresh, translated from the Rust sources under `src/`.

Time is modelled as integer seconds; `chrono::Utc::now()` becomes an explicit
`now : Time` argument.  Opaque cryptographic primitives (ECIES encryption,
secp256k1 public-key decoding) are passed in as a `CryptoOps` record.  The
libp2p response channel is a single-use capability and is modelled by an
opaque numeric handle; network actions performed by a handler are returned as
an explicit list of `Effect` values.
-/

/-- Timestamps and durations, in whole seconds (embeds `chrono::DateTime<Utc>`). -/
abbrev Time := Int

/-! ## Association-list maps

The Rust code stores pending tasks and outstanding heartbeats in `HashMap`s.
They are embedded as association lists; `mapInsert` replaces any previous
binding and `mapRemove` removes the binding, matching `HashMap::insert` and
`HashMap::remove` on maps with unique keys. -/

/-- Embeds `HashMap::get`: the value bound to key `k`, if any. -/
def mapFind {κ α : Type} [DecidableEq κ] (m : List (κ × α)) (k : κ) : Option α :=
  (m.find? (fun p => decide (p.1 = k))).map Prod.snd

/-- Embeds `HashMap::remove` (as to the remaining map): drop the binding of `k`. -/
def mapRemove {κ α : Type} [DecidableEq κ] (m : List (κ × α)) (k : κ) : List (κ × α) :=
  m.filter (fun p => !decide (p.1 = k))

/-- Embeds `HashMap::insert`: bind `k` to `v`, replacing any previous binding. -/
def mapInsert {κ α : Type} [DecidableEq κ] (m : List (κ × α)) (k : κ) (v : α) :
    List (κ × α) :=
  (k, v) :: mapRemove m k

/-! ## Models and providers (src/workflows-v2/src/models.rs) -/

/-- The `Model` enum of `src/workflows-v2/src/models.rs`. -/
inductive Model
  | Llama3_1_8bInstructQ4Km
  | Llama3_2_1bInstructQ4Km
  | Llama3_3_70bInstructQ4Km
  | MistralNemo12b
  | Gemma3_4b
  | Gemma3_12b
  | Gemma3_27b
  | GPT4o
  | GPT4oMini
  | Gemini2_5ProExp
  | Gemini2_0Flash
  | OR3_5Sonnet
  | OR3_7Sonnet
deriving DecidableEq, Repr

/-- The `ModelProvider` enum of `src/workflows-v2/src/models.rs`. -/
inductive ModelProvider
  | Ollama
  | OpenAI
  | Gemini
  | OpenRouter
deriving DecidableEq, Repr

/-- `impl From<&Model> for ModelProvider` (models.rs, lines 157-179). -/
def Model.provider : Model → ModelProvider
  | .Gemma3_12b => .Ollama
  | .Gemma3_27b => .Ollama
  | .Gemma3_4b => .Ollama
  | .Llama3_1_8bInstructQ4Km => .Ollama
  | .Llama3_2_1bInstructQ4Km => .Ollama
  | .Llama3_3_70bInstructQ4Km => .Ollama
  | .MistralNemo12b => .Ollama
  | .GPT4o => .OpenAI
  | .GPT4oMini => .OpenAI
  | .Gemini2_0Flash => .Gemini
  | .Gemini2_5ProExp => .Gemini
  | .OR3_5Sonnet => .OpenRouter
  | .OR3_7Sonnet => .OpenRouter

/-- `impl fmt::Display for Model` (models.rs, lines 97-105): the serde rename
string of the variant, i.e. the JSON serialisation with the quotes trimmed. -/
def Model.toString : Model → String
  | .Llama3_1_8bInstructQ4Km => "llama3.1:8b-instruct-q4_K_M"
  | .Llama3_2_1bInstructQ4Km => "llama3.2:1b-instruct-q4_K_M"
  | .Llama3_3_70bInstructQ4Km => "llama3.3:70b-instruct-q4_K_M"
  | .MistralNemo12b => "mistral-nemo:12b"
  | .Gemma3_4b => "gemma3:4b"
  | .Gemma3_12b => "gemma3:12b"
  | .Gemma3_27b => "gemma3:27b"
  | .GPT4o => "gpt-4o"
  | .GPT4oMini => "gpt-4o-mini"
  | .Gemini2_5ProExp => "gemini-2.5-pro-exp-03-25"
  | .Gemini2_0Flash => "gemini-2.0-flash"
  | .OR3_5Sonnet => "anthropic/claude-3.5-sonnet"
  | .OR3_7Sonnet => "anthropic/claude-3-7-sonnet"

/-- `enum_iterator::all::<Model>()`: every variant, in declaration order. -/
def Model.all : List Model :=
  [.Llama3_1_8bInstructQ4Km, .Llama3_2_1bInstructQ4Km, .Llama3_3_70bInstructQ4Km,
   .MistralNemo12b, .Gemma3_4b, .Gemma3_12b, .Gemma3_27b,
   .GPT4o, .GPT4oMini, .Gemini2_5ProExp, .Gemini2_0Flash,
   .OR3_5Sonnet, .OR3_7Sonnet]

/-- `impl TryFrom<&str> for Model` (models.rs, lines 114-121): serde
deserialisation of the quoted string, which succeeds exactly on the serde
rename string of some variant and yields that variant. -/
def Model.tryFrom (value : String) : Except String Model :=
  match Model.all.find? (fun m => decide (Model.toString m = value)) with
  | some m => Except.ok m
  | none => Except.error ("Model " ++ value ++ " invalid")

/-! ## Task payloads (src/utils/src/payloads/tasks.rs, src/compute/src/reqres/task.rs) -/

/-- `TaskStats` (tasks.rs, lines 103-116). -/
structure TaskStats where
  received_at : Time := 0
  published_at : Time := 0
  execution_started_at : Time := 0
  execution_ended_at : Time := 0
  token_count : Nat := 0
deriving DecidableEq, Repr

/-- `TaskStats::new` (tasks.rs, line 119): all-default stats. -/
def TaskStats.new : TaskStats := {}

/-- `TaskStats::record_received_at` (tasks.rs, lines 124-127), with the
`chrono::Utc::now()` call made explicit. -/
def TaskStats.record_received_at (s : TaskStats) (now : Time) : TaskStats :=
  { s with received_at := now }

/-- `TaskStats::record_published_at` (tasks.rs, lines 130-133). -/
def TaskStats.record_published_at (s : TaskStats) (now : Time) : TaskStats :=
  { s with published_at := now }

/-- `TaskError` (tasks.rs, lines 60-98). -/
inductive TaskError
  | ParseError (msg : String)
  | ProviderError (code message provider : String)
  | HttpError (msg : String)
  | ExecutorError (msg : String)
  | OutboundRequestError (code message : String)
  | Other (msg : String)
deriving DecidableEq, Repr

/-- The `thiserror` display strings of `TaskError` (the `#[error]` attributes in
tasks.rs); `send_output` renders a worker error with this before embedding it in
the error payload. -/
def TaskError.display : TaskError → String
  | .ParseError m => "Parse error: " ++ m
  | .ProviderError code message provider =>
      provider ++ " error (" ++ code ++ "): " ++ message
  | .HttpError m => "HTTP error: " ++ m
  | .ExecutorError m => "Executor error: " ++ m
  | .OutboundRequestError code message =>
      "Outbound request error: " ++ code ++ " - " ++ message
  | .Other m => "Other error: " ++ m

/-- The task input carried inside a `TaskRequestPayload<TaskWorkflow>`: a model
name and an opaque workflow (the executor input is out of scope and embedded as
a number). -/
structure TaskWorkflow where
  model : String
  workflow : Nat
deriving DecidableEq, Repr

/-- `TaskRequestPayload<TaskWorkflow>` as consumed by
`TaskResponder::prepare_worker_input` (task.rs accesses `file_id`, `row_id`,
`task_id`, `input`, `public_key` and `deadline`); uuids are embedded as
strings. -/
structure TaskRequestPayload where
  file_id : String
  row_id : String
  task_id : String
  input : TaskWorkflow
  public_key : String
  deadline : Time
deriving DecidableEq, Repr

/-- `TaskResponsePayload` (tasks.rs, lines 20-41).  In the source the `error`
field is an `Option<TaskError>`; `send_output` (task.rs, line 120) renders the
worker error to a string first, so the embedding stores the rendered string. -/
structure TaskResponsePayload where
  file_id : String
  row_id : String
  task_id : String
  model : String
  stats : TaskStats
  result : Option String
  error : Option String
deriving DecidableEq, Repr

/-! ## Crypto abstraction

secp256k1 and ECIES are external collaborators (spec section 1); they enter the
embedding as opaque functions. -/

/-- Opaque cryptographic operations: hex-decoding and parsing of a secp256k1
public key (which can fail), and ECIES encryption to a public key followed by
hex encoding (total).  Public keys are opaque numbers. -/
structure CryptoOps where
  decode_public_key : String → Option Nat
  encrypt_hex : Nat → String → String

/-- Modelled from the spec: `TaskResponsePayload::new` is not under `src/`
(only its caller in task.rs is).  Per spec sections 3 and 4.6 it populates
`result` with the hex-encoded ECIES ciphertext of the plaintext result
encrypted to the requester public key, and leaves `error` empty.  The spec does
not say how `file_id` and `row_id` are filled from the constructor arguments
(the constructor receives neither), so they are left at a default. -/
def TaskResponsePayload.new (c : CryptoOps) (result : String) (task_id : String)
    (public_key : Nat) (model_name : String) (stats : TaskStats) :
    TaskResponsePayload :=
  { file_id := "", row_id := "", task_id := task_id, model := model_name,
    stats := stats, result := some (c.encrypt_hex public_key result),
    error := none }

/-- Modelled from the spec: `TaskResponsePayload::new_error` is not under
`src/`.  Per spec sections 3 and 4.6 it populates `error` with the rendered
worker error and leaves `result` empty. -/
def TaskResponsePayload.new_error (err : String) (task_id : String)
    (model_name : String) (stats : TaskStats) : TaskResponsePayload :=
  { file_id := "", row_id := "", task_id := task_id, model := model_name,
    stats := stats, result := none, error := some err }

/-! ## Worker types (spec section 4.2; struct fields as used by
src/compute/src/reqres/task.rs and src/compute/src/node/reqres.rs) -/

/-- The executor constructed in `prepare_worker_input` (task.rs, lines 58-69):
either `Executor::new_at(model, host, port)` for local Ollama, or
`Executor::new(model)` for a remote provider. -/
inductive Executor
  | new_at (model : Model) (host : String) (port : Nat)
  | new (model : Model)
deriving DecidableEq, Repr

/-- `TaskWorkerInput` (spec section 4.2). -/
structure TaskWorkerInput where
  executor : Executor
  workflow : Nat
  task_id : String
  stats : TaskStats
  batchable : Bool
deriving DecidableEq, Repr

/-- `TaskWorkerMetadata` (spec sections 3 and 4.6): the per-task record kept in
the pending maps.  The single-use response channel handle is an opaque
number. -/
structure TaskWorkerMetadata where
  model_name : String
  public_key : Nat
  channel : Nat
deriving DecidableEq, Repr

deriving instance DecidableEq for Except

/-- `TaskWorkerOutput` (spec section 4.2): what a worker emits on the shared
output channel. -/
structure TaskWorkerOutput where
  result : Except TaskError String
  task_id : String
  batchable : Bool
  stats : TaskStats
deriving DecidableEq, Repr

/-! ## Node configuration and state (src/compute/src/config.rs,
src/compute/src/node/mod.rs) -/

/-- The locally configured Ollama endpoint (`node.config.workflows.ollama`). -/
structure OllamaConfig where
  host : String
  port : Nat
deriving DecidableEq, Repr

/-- The workflows configuration: the set of models this node serves plus the
Ollama endpoint. -/
structure DriaWorkflowsConfig where
  models : List Model
  ollama : OllamaConfig
deriving DecidableEq, Repr

/-- Modelled from the spec: `DriaWorkflowsConfig::get_any_matching_model` is
not under `src/` (only its caller in task.rs is).  Per spec section 4.6 it
resolves the requested model name against the configured workflows and fails
when no configured model matches. -/
def DriaWorkflowsConfig.get_any_matching_model (cfg : DriaWorkflowsConfig)
    (model : String) : Except String Model :=
  match cfg.models.find? (fun m => decide (Model.toString m = model)) with
  | some m => Except.ok m
  | none => Except.error ("no matching model found for " ++ model)

/-- The parts of `DriaComputeNodeConfig` (config.rs) the handlers read. -/
structure DriaComputeNodeConfig where
  workflows : DriaWorkflowsConfig
  batch_size : Nat
deriving DecidableEq, Repr

/-- The trusted RPC descriptor `DriaRPC` (spec section 3): peer id (opaque
number), multiaddress and network. -/
structure DriaRPC where
  peer_id : Nat
  addr : String
  network : Nat
deriving DecidableEq, Repr

/-- The mutable state of `DriaComputeNode` (node/mod.rs) touched by the
embedded handlers.  `task_request_batch_tx` and `task_request_single_tx` embed
`Option<Sender>::is_some()`: whether the corresponding worker lane exists. -/
structure DriaComputeNode where
  config : DriaComputeNodeConfig
  dria_rpc : DriaRPC
  pending_tasks_single : List (String × TaskWorkerMetadata)
  pending_tasks_batch : List (String × TaskWorkerMetadata)
  completed_tasks_single : Nat
  completed_tasks_batch : Nat
  heartbeats_reqs : List (Nat × Time)
  last_heartbeat_at : Time
  num_heartbeats : Nat
  task_request_batch_tx : Bool
  task_request_single_tx : Bool
deriving DecidableEq, Repr

/-- A network action performed by a handler: responding on a one-shot response
channel (`p2p.respond`), or sending a task input to a worker lane. -/
inductive Effect
  | respond (channel : Nat)
  | workerSend (batchable : Bool) (task_id : String)
deriving DecidableEq, Repr

/-! ## Task dispatch (src/compute/src/reqres/task.rs) -/

/-- `TaskResponder::prepare_worker_input` (task.rs, lines 21-89), after the
payload has been JSON-parsed (parsing is modelled at the router, which feeds
this function only well-formed `TaskRequestPayload` values):

1. `stats` records `received_at = now`;
2. reject when `now >= task.deadline`;
3. hex-decode and parse the requester public key (can fail);
4. resolve `task.input.model` against the configured workflows (can fail);
5. provider Ollama gives `batchable = false` and a local executor, any other
   provider gives `batchable = true` and a provider-default executor. -/
def TaskResponder.prepare_worker_input (c : CryptoOps)
    (config : DriaComputeNodeConfig) (task : TaskRequestPayload) (now : Time)
    (channel : Nat) : Except String (TaskWorkerInput × TaskWorkerMetadata) :=
  let stats := TaskStats.new.record_received_at now
  if task.deadline ≤ now then
    Except.error ("Task " ++ task.task_id ++ " is past the deadline, ignoring")
  else
    match c.decode_public_key task.public_key with
    | none => Except.error "could not decode public key"
    | some task_public_key =>
      match config.workflows.get_any_matching_model task.input.model with
      | Except.error e => Except.error e
      | Except.ok model =>
        let model_name := Model.toString model
        let pair :=
          if model.provider = ModelProvider.Ollama then
            (Executor.new_at model config.workflows.ollama.host
              config.workflows.ollama.port, false)
          else
            (Executor.new model, true)
        Except.ok
          ({ executor := pair.1, workflow := task.input.workflow,
             task_id := task.task_id, stats := stats, batchable := pair.2 },
           { model_name := model_name, public_key := task_public_key,
             channel := channel })

/-- `TaskResponder::send_output` (task.rs, lines 92-142): build the success or
error response payload from the worker output, stamp `published_at`, and
respond on the stored channel.  The signed-envelope wrapping is out of scope;
the returned pair is the response payload and the `p2p.respond` effect on the
metadata channel. -/
def TaskResponder.send_output (c : CryptoOps) (task_output : TaskWorkerOutput)
    (task_metadata : TaskWorkerMetadata) (now : Time) :
    TaskResponsePayload × Effect :=
  let response :=
    match task_output.result with
    | Except.ok result =>
        TaskResponsePayload.new c result task_output.task_id
          task_metadata.public_key task_metadata.model_name
          (task_output.stats.record_published_at now)
    | Except.error err =>
        TaskResponsePayload.new_error (TaskError.display err)
          task_output.task_id task_metadata.model_name
          (task_output.stats.record_published_at now)
  (response, Effect.respond task_metadata.channel)

/-! ## Node request-response handlers (src/compute/src/node/reqres.rs) -/

/-- `DriaComputeNode::send_task_output` (reqres.rs, lines 170-197), keyed by
`task_response.batchable`: bump the completed counter and remove the pending
entry (in the source order: the counter is incremented before the lookup, see
the TODO comments on lines 174 and 178), then either respond through the stored
channel or fail with a missing-channel error.  Returns the new state, the
emitted effects and the result. -/
def DriaComputeNode.send_task_output (c : CryptoOps) (node : DriaComputeNode)
    (task_response : TaskWorkerOutput) (now : Time) :
    DriaComputeNode × List Effect × Except String Unit :=
  let looked :=
    match task_response.batchable with
    | true =>
        (mapFind node.pending_tasks_batch task_response.task_id,
         { node with
            completed_tasks_batch := node.completed_tasks_batch + 1,
            pending_tasks_batch :=
              mapRemove node.pending_tasks_batch task_response.task_id })
    | false =>
        (mapFind node.pending_tasks_single task_response.task_id,
         { node with
            completed_tasks_single := node.completed_tasks_single + 1,
            pending_tasks_single :=
              mapRemove node.pending_tasks_single task_response.task_id })
  match looked.1 with
  | some task_metadata =>
      (looked.2, [(TaskResponder.send_output c task_response task_metadata now).2],
       Except.ok ())
  | none =>
      (looked.2, [],
       Except.error ("Channel not found for task id: " ++ task_response.task_id))

/-- `DriaComputeNode::handle_task_request` (reqres.rs, lines 125-168): prepare
the worker input; on the batchable lane, insert the metadata into
`pending_tasks_batch` and send the input to the batch worker when the sender
exists, otherwise fail; symmetrically on the single lane.  A send failure is
only logged, so the send itself is an effect and the function returns `ok`. -/
def DriaComputeNode.handle_task_request (c : CryptoOps)
    (node : DriaComputeNode) (task_request : TaskRequestPayload) (now : Time)
    (channel : Nat) : DriaComputeNode × List Effect × Except String Unit :=
  match TaskResponder.prepare_worker_input c node.config task_request now channel with
  | Except.error e => (node, [], Except.error e)
  | Except.ok (task_input, task_metadata) =>
    match task_input.batchable with
    | true =>
      match node.task_request_batch_tx with
      | true =>
          ({ node with
              pending_tasks_batch :=
                mapInsert node.pending_tasks_batch task_input.task_id
                  task_metadata },
           [Effect.workerSend true task_input.task_id], Except.ok ())
      | false =>
          (node, [],
           Except.error "Batchable workflow received but no worker available.")
    | false =>
      match node.task_request_single_tx with
      | true =>
          ({ node with
              pending_tasks_single :=
                mapInsert node.pending_tasks_single task_input.task_id
                  task_metadata },
           [Effect.workerSend false task_input.task_id], Except.ok ())
      | false =>
          (node, [],
           Except.error "Single workflow received but no worker available.")

/-! ## Heartbeats (src/compute/src/reqres/heartbeat.rs) -/

/-- `HeartbeatResponse` (spec section 3): the ACK sent back by the RPC.
Heartbeat uuids are opaque numbers. -/
structure HeartbeatResponse where
  heartbeat_id : Nat
  error : Option String
deriving DecidableEq, Repr

/-- `HeartbeatRequester::handle_ack` (heartbeat.rs, lines 53-87): look up and
remove the heartbeat id; unknown id is an error with no state change; a
response carrying an error is an error (the entry is still removed) without
touching the liveness fields; otherwise set `last_heartbeat_at = now` and
increment `num_heartbeats` (a late ACK, past the stored deadline, only logs a
warning and is still accepted). -/
def HeartbeatRequester.handle_ack (node : DriaComputeNode)
    (res : HeartbeatResponse) (now : Time) :
    DriaComputeNode × Except String Unit :=
  match mapFind node.heartbeats_reqs res.heartbeat_id with
  | some _deadline =>
    let node1 :=
      { node with
          heartbeats_reqs := mapRemove node.heartbeats_reqs res.heartbeat_id }
    match res.error with
    | some err =>
        (node1, Except.error ("heartbeat was not acknowledged: " ++ err))
    | none =>
        ({ node1 with last_heartbeat_at := now,
                      num_heartbeats := node1.num_heartbeats + 1 },
         Except.ok ())
  | none =>
      (node, Except.error
        ("Received an unknown heartbeat response with id " ++
          Nat.repr res.heartbeat_id ++ "."))

/-! ## Request router (src/compute/src/node/reqres.rs, lines 19-90) -/

/-- An inbound request body after the try-parse chain of `handle_request`:
a spec request, a task request, or bytes neither parser accepts. -/
inductive InboundRequest
  | specRequest (request_id : String)
  | taskRequest (task : TaskRequestPayload)
  | unparsable
deriving DecidableEq, Repr

/-- An inbound response body after the try-parse of `handle_response`. -/
inductive InboundResponse
  | heartbeatAck (res : HeartbeatResponse)
  | unparsable
deriving DecidableEq, Repr

/-- `request_response::Message`: either a request carrying a one-shot response
channel, or a response. -/
inductive Message
  | request (data : InboundRequest) (channel : Nat)
  | response (data : InboundResponse)
deriving DecidableEq, Repr

/-- `DriaComputeNode::handle_request` (reqres.rs, lines 75-90) together with
`handle_spec_request` (lines 93-118): a spec request is answered on the
channel; a task request goes to `handle_task_request`; anything else is an
unhandled-request error. -/
def DriaComputeNode.handle_request (c : CryptoOps) (node : DriaComputeNode)
    (data : InboundRequest) (channel : Nat) (now : Time) :
    DriaComputeNode × List Effect × Except String Unit :=
  match data with
  | InboundRequest.specRequest _ =>
      (node, [Effect.respond channel], Except.ok ())
  | InboundRequest.taskRequest task =>
      node.handle_task_request c task now channel
  | InboundRequest.unparsable =>
      (node, [], Except.error "Received unhandled request")

/-- `DriaComputeNode::handle_response` (reqres.rs, lines 58-69): a heartbeat
ACK goes to `handle_ack`; anything else is an error. -/
def DriaComputeNode.handle_response (node : DriaComputeNode)
    (data : InboundResponse) (now : Time) :
    DriaComputeNode × Except String Unit :=
  match data with
  | InboundResponse.heartbeatAck res => HeartbeatRequester.handle_ack node res now
  | InboundResponse.unparsable =>
      (node, Except.error "Received unhandled response")

/-- `DriaComputeNode::handle_reqres` (reqres.rs, lines 19-51): a request from a
peer other than the trusted RPC is only logged and discarded; an authorized
request goes to `handle_request`; a response goes to `handle_response`.  Errors
of the inner handlers are logged and swallowed, so only the state and the
effects are returned. -/
def DriaComputeNode.handle_reqres (c : CryptoOps) (node : DriaComputeNode)
    (peer_id : Nat) (message : Message) (now : Time) :
    DriaComputeNode × List Effect :=
  match message with
  | Message.request data channel =>
      if node.dria_rpc.peer_id ≠ peer_id then
        (node, [])
      else
        let r := node.handle_request c data channel now
        (r.1, r.2.1)
  | Message.response data =>
      let r := node.handle_response data now
      (r.1, [])

/-! ## Liveness status (src/compute/src/node/diagnostic.rs) -/

/-- The tri-state liveness status printed by the diagnostic. -/
inductive NodeStatus
  | CONNECTING
  | OFFLINE
  | ONLINE
deriving DecidableEq, Repr

/-- `HEARTBEAT_LIVENESS_SECS` (diagnostic.rs, line 10): 150 seconds. -/
def HEARTBEAT_LIVENESS_SECS : Time := 150

/-- The status derivation of `handle_diagnostic_refresh` (diagnostic.rs, lines
59-75): `is_offline` holds when `now > last_heartbeat_at + 150s`; a node with
no acknowledged heartbeat is CONNECTING, otherwise it is OFFLINE or ONLINE by
`is_offline`. -/
def DriaComputeNode.node_status (node : DriaComputeNode) (now : Time) :
    NodeStatus :=
  let is_offline := node.last_heartbeat_at + HEARTBEAT_LIVENESS_SECS < now
  if node.num_heartbeats = 0 then NodeStatus.CONNECTING
  else if is_offline then NodeStatus.OFFLINE
  else NodeStatus.ONLINE

/-- `DriaComputeNode::handle_available_nodes_refresh` (diagnostic.rs, lines
92-135), with the external world as explicit arguments: the `is_connected`
answer, whether the re-dial of the stored RPC succeeds, the result of fetching
a replacement descriptor (`DriaRPC::new`, an external HTTP fetch), and whether
the dial to the replacement succeeds.  The source assigns `self.dria_rpc =
new_rpc` before the replacement dial, and a failure of that dial is only
logged. -/
def DriaComputeNode.handle_available_nodes_refresh (node : DriaComputeNode)
    (is_connected : Bool) (dial_rpc_ok : Bool) (new_rpc_result : Option DriaRPC)
    (dial_new_rpc_ok : Bool) : DriaComputeNode :=
  if is_connected then node
  else if dial_rpc_ok then node
  else
    match new_rpc_result with
    | some new_rpc =>
        let node1 := { node with dria_rpc := new_rpc }
        match dial_new_rpc_ok with
        | true => node1
        | false => node1
    | none => node

/-! ## Concrete fixtures for witnesses -/

/-- Concrete crypto: every key string decodes to key 7, and encryption is the
identity on the plaintext (fine for witnesses, which never depend on the
cipher). -/
def exCrypto : CryptoOps :=
  { decode_public_key := fun _ => some 7, encrypt_hex := fun _ s => s }

/-- Concrete configuration serving one remote and one Ollama model. -/
def exConfig : DriaComputeNodeConfig :=
  { workflows :=
      { models := [Model.GPT4o, Model.Gemma3_4b],
        ollama := { host := "localhost", port := 11434 } },
    batch_size := 5 }

/-- Concrete trusted RPC descriptor. -/
def exRPC : DriaRPC := { peer_id := 1, addr := "/ip4/1.2.3.4/tcp/4001", network := 0 }

/-- Concrete freshly constructed node: empty pending maps, no heartbeats, both
worker lanes present. -/
def exNode : DriaComputeNode :=
  { config := exConfig, dria_rpc := exRPC,
    pending_tasks_single := [], pending_tasks_batch := [],
    completed_tasks_single := 0, completed_tasks_batch := 0,
    heartbeats_reqs := [], last_heartbeat_at := 0, num_heartbeats := 0,
    task_request_batch_tx := true, task_request_single_tx := true }

/-- Concrete task request for the remote model, with deadline 100. -/
def exTask : TaskRequestPayload :=
  { file_id := "f", row_id := "r", task_id := "t",
    input := { model := "gpt-4o", workflow := 0 },
    public_key := "02abc", deadline := 100 }

/-- The worker input `prepare_worker_input` produces for `exTask` at time 0. -/
def exInput : TaskWorkerInput :=
  { executor := Executor.new Model.GPT4o, workflow := 0, task_id := "t",
    stats := { received_at := 0 }, batchable := true }

/-- The metadata `prepare_worker_input` produces for `exTask` on channel 9. -/
def exMd : TaskWorkerMetadata :=
  { model_name := "gpt-4o", public_key := 7, channel := 9 }

/-- Concrete node with one outstanding heartbeat (id 5, deadline 60). -/
def exNodeHb : DriaComputeNode :=
  { exNode with heartbeats_reqs := [(5, 60)] }

/-- Concrete worker output whose task id is pending in no map. -/
def exMissingOutput : TaskWorkerOutput :=
  { result := Except.ok "x", task_id := "t", batchable := true, stats := {} }

/-! ## Map lemmas -/

/-- After removing a key, looking it up yields nothing. -/
theorem mapFind_mapRemove {κ α : Type} [DecidableEq κ] (m : List (κ × α))
    (k : κ) : mapFind (mapRemove m k) k = none := by
  induction m with
  | nil => rfl
  | cons p t ih =>
      by_cases h : p.1 = k
      · simp only [mapFind, mapRemove] at ih ⊢
        simp [List.filter_cons, h, ih]
      · simp only [mapFind, mapRemove] at ih ⊢
        simp [List.filter_cons, List.find?_cons, h]

/-- Inserting binds the key: looking up the inserted key yields the value. -/
theorem mapFind_mapInsert {κ α : Type} [DecidableEq κ] (m : List (κ × α))
    (k : κ) (v : α) : mapFind (mapInsert m k v) k = some v := by
  simp [mapFind, mapInsert, List.find?_cons]

/-! ## Claim theorems -/

/-- C3: for every inbound task request whose deadline satisfies now ≥ deadline
at receipt, `handle_task_request` returns an error before any dispatch: the
resulting state equals the initial one (so no entry enters
`pending_tasks_batch` or `pending_tasks_single` and the completed-task counters
are unchanged) and no effect — in particular no respond — is emitted. -/
theorem C3_past_deadline_rejected (c : CryptoOps) (node : DriaComputeNode)
    (task : TaskRequestPayload) (now : Time) (channel : Nat)
    (h : task.deadline ≤ now) :
    node.handle_task_request c task now channel =
      (node, [],
       Except.error ("Task " ++ task.task_id ++ " is past the deadline, ignoring")) := by
  simp [DriaComputeNode.handle_task_request, TaskResponder.prepare_worker_input, h]

/-- C3 witness: the concrete task with deadline 100 arriving at time 100 is
rejected with the past-deadline error and the node is untouched. -/
theorem C3_witness :
    DriaComputeNode.handle_task_request exCrypto exNode exTask 100 9 =
      (exNode, [],
       Except.error ("Task " ++ exTask.task_id ++ " is past the deadline, ignoring")) :=
  C3_past_deadline_rejected exCrypto exNode exTask 100 9 (by decide)

/-- C4: a request from a peer other than the stored trusted RPC peer id is only
logged and discarded: `handle_reqres` returns the state unchanged (pending
maps, heartbeat set, counters and RPC descriptor included) and emits no effect,
so no handler runs and no respond is issued. -/
theorem C4_unauthorized_request_discarded (c : CryptoOps)
    (node : DriaComputeNode) (peer_id : Nat) (data : InboundRequest)
    (channel : Nat) (now : Time) (h : node.dria_rpc.peer_id ≠ peer_id) :
    node.handle_reqres c peer_id (Message.request data channel) now =
      (node, []) := by
  simp [DriaComputeNode.handle_reqres, h]

/-- C4 witness: a request from peer 2 at a node whose trusted RPC peer is 1 is
discarded without effects or state change. -/
theorem C4_witness :
    DriaComputeNode.handle_reqres exCrypto exNode 2
      (Message.request (InboundRequest.taskRequest exTask) 9) 0 = (exNode, []) :=
  C4_unauthorized_request_discarded exCrypto exNode 2
    (InboundRequest.taskRequest exTask) 9 0 (by decide)

/-- C7: the displayed liveness status is a pure function of
(num_heartbeats, last_heartbeat_at, now): CONNECTING when no heartbeat has been
acknowledged; otherwise OFFLINE exactly when now > last_heartbeat_at + 150s and
ONLINE otherwise.  Consequently, after a successful ACK handled at time `now`,
the status at any instant `t` is ONLINE for t ≤ now + 150s and OFFLINE for
t > now + 150s — so the node is ONLINE right after an ACK, OFFLINE 150s after
the last ACK, and ONLINE again after any subsequent ACK. -/
theorem C7_liveness_status (node : DriaComputeNode) (now : Time) :
    (node.num_heartbeats = 0 → node.node_status now = NodeStatus.CONNECTING) ∧
    (node.num_heartbeats ≠ 0 →
      node.last_heartbeat_at + HEARTBEAT_LIVENESS_SECS < now →
      node.node_status now = NodeStatus.OFFLINE) ∧
    (node.num_heartbeats ≠ 0 →
      now ≤ node.last_heartbeat_at + HEARTBEAT_LIVENESS_SECS →
      node.node_status now = NodeStatus.ONLINE) ∧
    (∀ res : HeartbeatResponse, ∀ d : Time,
      mapFind node.heartbeats_reqs res.heartbeat_id = some d →
      res.error = none →
      ∀ t : Time,
        (HeartbeatRequester.handle_ack node res now).1.node_status t =
          if now + HEARTBEAT_LIVENESS_SECS < t then NodeStatus.OFFLINE
          else NodeStatus.ONLINE) := by
  refine ⟨fun h => ?_, fun h hlt => ?_, fun h hle => ?_, fun res d hfind herr t => ?_⟩
  · simp [DriaComputeNode.node_status, h]
  · simp [DriaComputeNode.node_status, h, hlt]
  · simp [DriaComputeNode.node_status, h, not_lt.mpr hle]
  · by_cases hlt : now + HEARTBEAT_LIVENESS_SECS < t <;>
      simp [HeartbeatRequester.handle_ack, hfind, herr,
        DriaComputeNode.node_status, hlt]

/-- C7 witness: the fresh node is CONNECTING; after its outstanding heartbeat
is acknowledged at time 10 it is ONLINE at time 10 and OFFLINE at time 161. -/
theorem C7_witness :
    exNodeHb.node_status 0 = NodeStatus.CONNECTING ∧
    (HeartbeatRequester.handle_ack exNodeHb
      { heartbeat_id := 5, error := none } 10).1.node_status 10 =
        NodeStatus.ONLINE ∧
    (HeartbeatRequester.handle_ack exNodeHb
      { heartbeat_id := 5, error := none } 10).1.node_status 161 =
        NodeStatus.OFFLINE := by
  refine ⟨(C7_liveness_status exNodeHb 0).1 (by decide), ?_, ?_⟩
  · have h := (C7_liveness_status exNodeHb 10).2.2.2
      { heartbeat_id := 5, error := none } 60 (by decide) rfl 10
    simpa using h
  · have h := (C7_liveness_status exNodeHb 10).2.2.2
      { heartbeat_id := 5, error := none } 60 (by decide) rfl 161
    simpa using h

/-- C9: on a liveness tick with `is_connected` false and a failed re-dial of
the stored RPC, once a replacement descriptor is fetched the state after the
tick equals the state just before the replacement dial — the node with the
stored descriptor already replaced by the fetched one — whether or not the
replacement dial succeeds (a failure is only logged); in particular the stored
descriptor equals the newly fetched one. -/
theorem C9_rpc_redial_switch (node : DriaComputeNode) (new_rpc : DriaRPC)
    (dial_new_rpc_ok : Bool) :
    node.handle_available_nodes_refresh false false (some new_rpc) dial_new_rpc_ok =
      { node with dria_rpc := new_rpc } ∧
    (node.handle_available_nodes_refresh false false (some new_rpc)
        dial_new_rpc_ok).dria_rpc = new_rpc := by
  cases dial_new_rpc_ok <;>
    simp [DriaComputeNode.handle_available_nodes_refresh]

/-! ## Lemmas on send_task_output for C1 -/

/-- After `send_task_output` for an output, the map selected by its batchable
flag no longer contains its task id (the entry is removed before responding). -/
theorem send_task_output_clears (c : CryptoOps) (node : DriaComputeNode)
    (o : TaskWorkerOutput) (now : Time) :
    (o.batchable = true →
      mapFind (node.send_task_output c o now).1.pending_tasks_batch o.task_id = none) ∧
    (o.batchable = false →
      mapFind (node.send_task_output c o now).1.pending_tasks_single o.task_id = none) := by
  constructor
  · intro hb
    cases hfind : mapFind node.pending_tasks_batch o.task_id <;>
      simp [DriaComputeNode.send_task_output, hb, hfind, mapFind_mapRemove]
  · intro hb
    cases hfind : mapFind node.pending_tasks_single o.task_id <;>
      simp [DriaComputeNode.send_task_output, hb, hfind, mapFind_mapRemove]

/-- `send_task_output` emits at most one effect (one respond on success, none
on a missing entry). -/
theorem send_task_output_effects_len (c : CryptoOps) (node : DriaComputeNode)
    (o : TaskWorkerOutput) (now : Time) :
    (node.send_task_output c o now).2.1.length ≤ 1 := by
  cases hb : o.batchable
  · cases hfind : mapFind node.pending_tasks_single o.task_id <;>
      simp [DriaComputeNode.send_task_output, hb, hfind]
  · cases hfind : mapFind node.pending_tasks_batch o.task_id <;>
      simp [DriaComputeNode.send_task_output, hb, hfind]

/-- When the map selected by the batchable flag has no entry for the task id,
`send_task_output` emits no effect and fails with the missing-channel error. -/
theorem send_task_output_missing (c : CryptoOps) (node : DriaComputeNode)
    (o : TaskWorkerOutput) (now : Time)
    (h : (if o.batchable then mapFind node.pending_tasks_batch o.task_id
          else mapFind node.pending_tasks_single o.task_id) = none) :
    (node.send_task_output c o now).2.1 = [] ∧
    (node.send_task_output c o now).2.2 =
      Except.error ("Channel not found for task id: " ++ o.task_id) := by
  cases hb : o.batchable
  · rw [hb] at h
    simp only [Bool.false_eq_true, if_false] at h
    simp [DriaComputeNode.send_task_output, hb, h]
  · rw [hb] at h
    simp only [if_true] at h
    simp [DriaComputeNode.send_task_output, hb, h]

/-- C1: at most one respond is ever issued per task id: `send_task_output`
removes the pending-map entry (holding the single-use channel handle) before
responding, so processing two worker outputs with the same task id and the
same batchable flag from any state makes the second lookup fail with an error,
yields no effect for the second output, and emits at most one respond in
total — no response channel handle is used twice. -/
theorem C1_at_most_one_respond (c : CryptoOps) (node : DriaComputeNode)
    (o1 o2 : TaskWorkerOutput) (now1 now2 : Time)
    (hid : o2.task_id = o1.task_id) (hb : o2.batchable = o1.batchable) :
    ((node.send_task_output c o1 now1).1.send_task_output c o2 now2).2.2 =
      Except.error ("Channel not found for task id: " ++ o2.task_id) ∧
    ((node.send_task_output c o1 now1).1.send_task_output c o2 now2).2.1 = [] ∧
    ((node.send_task_output c o1 now1).2.1 ++
      ((node.send_task_output c o1 now1).1.send_task_output c o2 now2).2.1).length ≤ 1 := by
  have hclear := send_task_output_clears c node o1 now1
  have hmiss : (if o2.batchable then
      mapFind (node.send_task_output c o1 now1).1.pending_tasks_batch o2.task_id
    else
      mapFind (node.send_task_output c o1 now1).1.pending_tasks_single o2.task_id) = none := by
    cases h1 : o1.batchable
    · have := hclear.2 h1
      simp [hb, h1, hid, this]
    · have := hclear.1 h1
      simp [hb, h1, hid, this]
  have hsecond := send_task_output_missing c (node.send_task_output c o1 now1).1 o2 now2 hmiss
  refine ⟨hsecond.2, hsecond.1, ?_⟩
  rw [hsecond.1]
  simpa using send_task_output_effects_len c node o1 now1

/-- C1 witness: from the fresh node, two outputs for task id t on the batch
lane produce a failing second lookup, no second effect, and at most one
respond in total. -/
theorem C1_witness :
    ((exNode.send_task_output exCrypto exMissingOutput 0).1.send_task_output
        exCrypto exMissingOutput 1).2.2 =
      Except.error ("Channel not found for task id: " ++ exMissingOutput.task_id) ∧
    ((exNode.send_task_output exCrypto exMissingOutput 0).1.send_task_output
        exCrypto exMissingOutput 1).2.1 = [] ∧
    ((exNode.send_task_output exCrypto exMissingOutput 0).2.1 ++
      ((exNode.send_task_output exCrypto exMissingOutput 0).1.send_task_output
        exCrypto exMissingOutput 1).2.1).length ≤ 1 :=
  C1_at_most_one_respond exCrypto exNode exMissingOutput exMissingOutput 0 1 rfl rfl

/-- C2: every response payload built by `send_output` has exactly one of
`result` and `error` populated: an Ok worker output yields
`result = some (hex ECIES ciphertext of the plaintext to the requester key)`
and `error = none`; an Err worker output yields the rendered error in `error`
and `result = none`. -/
theorem C2_result_error_exclusive (c : CryptoOps) (o : TaskWorkerOutput)
    (md : TaskWorkerMetadata) (now : Time) :
    (∀ s, o.result = Except.ok s →
      (TaskResponder.send_output c o md now).1.result =
        some (c.encrypt_hex md.public_key s) ∧
      (TaskResponder.send_output c o md now).1.error = none) ∧
    (∀ e, o.result = Except.error e →
      (TaskResponder.send_output c o md now).1.error =
        some (TaskError.display e) ∧
      (TaskResponder.send_output c o md now).1.result = none) := by
  refine ⟨fun s hs => ?_, fun e he => ?_⟩
  · simp [TaskResponder.send_output, hs, TaskResponsePayload.new]
  · simp [TaskResponder.send_output, he, TaskResponsePayload.new_error]

/-- C2 witness: a concrete Ok output yields a populated result and no error. -/
theorem C2_witness :
    (TaskResponder.send_output exCrypto exMissingOutput exMd 3).1.result =
      some (exCrypto.encrypt_hex exMd.public_key "x") ∧
    (TaskResponder.send_output exCrypto exMissingOutput exMd 3).1.error = none :=
  (C2_result_error_exclusive exCrypto exMissingOutput exMd 3).1 "x" rfl

/-! ## Lemmas on prepare_worker_input and routing for C5 -/

/-- A successful `prepare_worker_input` keeps the task id and derives the
batchable flag from the resolved model: false exactly when the provider is
Ollama. -/
theorem prepare_worker_input_fields (c : CryptoOps)
    (config : DriaComputeNodeConfig) (task : TaskRequestPayload) (now : Time)
    (channel : Nat) (input : TaskWorkerInput) (md : TaskWorkerMetadata)
    (m : Model)
    (hm : config.workflows.get_any_matching_model task.input.model = Except.ok m)
    (h : TaskResponder.prepare_worker_input c config task now channel =
      Except.ok (input, md)) :
    input.task_id = task.task_id ∧
    input.batchable = decide (¬ m.provider = ModelProvider.Ollama) := by
  by_cases hd : task.deadline ≤ now
  · exfalso
    simp [TaskResponder.prepare_worker_input, hd] at h
  cases hpk : c.decode_public_key task.public_key with
  | none =>
      exfalso
      simp [TaskResponder.prepare_worker_input, hd, hpk] at h
  | some pk =>
      by_cases hollama : m.provider = ModelProvider.Ollama
      · simp [TaskResponder.prepare_worker_input, hd, hpk, hm, hollama] at h
        obtain ⟨hinput, _⟩ := h
        subst hinput
        simp [hollama]
      · simp [TaskResponder.prepare_worker_input, hd, hpk, hm, hollama] at h
        obtain ⟨hinput, _⟩ := h
        subst hinput
        simp [hollama]

/-- Routing of `handle_task_request` after a successful prepare: the batchable
lane inserts into `pending_tasks_batch` and sends to the batch worker when that
sender exists, failing without insertion otherwise; symmetric on the single
lane. -/
theorem handle_task_request_routes (c : CryptoOps) (node : DriaComputeNode)
    (task : TaskRequestPayload) (now : Time) (channel : Nat)
    (input : TaskWorkerInput) (md : TaskWorkerMetadata)
    (h : TaskResponder.prepare_worker_input c node.config task now channel =
      Except.ok (input, md)) :
    (input.batchable = true → node.task_request_batch_tx = true →
      node.handle_task_request c task now channel =
        ({ node with pending_tasks_batch :=
             mapInsert node.pending_tasks_batch input.task_id md },
         [Effect.workerSend true input.task_id], Except.ok ())) ∧
    (input.batchable = true → node.task_request_batch_tx = false →
      node.handle_task_request c task now channel =
        (node, [],
         Except.error "Batchable workflow received but no worker available.")) ∧
    (input.batchable = false → node.task_request_single_tx = true →
      node.handle_task_request c task now channel =
        ({ node with pending_tasks_single :=
             mapInsert node.pending_tasks_single input.task_id md },
         [Effect.workerSend false input.task_id], Except.ok ())) ∧
    (input.batchable = false → node.task_request_single_tx = false →
      node.handle_task_request c task now channel =
        (node, [],
         Except.error "Single workflow received but no worker available.")) := by
  refine ⟨fun hb htx => ?_, fun hb htx => ?_, fun hb htx => ?_, fun hb htx => ?_⟩ <;>
    simp [DriaComputeNode.handle_task_request, h, hb, htx]

/-- C5: for every accepted task request the batchable flag equals
(resolved model provider ≠ Ollama); a batchable task is recorded in
`pending_tasks_batch` under its task id and sent to the batch lane, a
non-batchable one is recorded in `pending_tasks_single` and sent to the single
lane, and when the required lane sender is absent the request fails with an
error and no pending-map entry is inserted. -/
theorem C5_batchable_routing (c : CryptoOps) (node : DriaComputeNode)
    (task : TaskRequestPayload) (now : Time) (channel : Nat)
    (input : TaskWorkerInput) (md : TaskWorkerMetadata) (m : Model)
    (hm : node.config.workflows.get_any_matching_model task.input.model =
      Except.ok m)
    (h : TaskResponder.prepare_worker_input c node.config task now channel =
      Except.ok (input, md)) :
    input.task_id = task.task_id ∧
    input.batchable = decide (¬ m.provider = ModelProvider.Ollama) ∧
    (input.batchable = true → node.task_request_batch_tx = true →
      node.handle_task_request c task now channel =
        ({ node with pending_tasks_batch :=
             mapInsert node.pending_tasks_batch input.task_id md },
         [Effect.workerSend true input.task_id], Except.ok ())) ∧
    (input.batchable = true → node.task_request_batch_tx = false →
      node.handle_task_request c task now channel =
        (node, [],
         Except.error "Batchable workflow received but no worker available.")) ∧
    (input.batchable = false → node.task_request_single_tx = true →
      node.handle_task_request c task now channel =
        ({ node with pending_tasks_single :=
             mapInsert node.pending_tasks_single input.task_id md },
         [Effect.workerSend false input.task_id], Except.ok ())) ∧
    (input.batchable = false → node.task_request_single_tx = false →
      node.handle_task_request c task now channel =
        (node, [],
         Except.error "Single workflow received but no worker available.")) := by
  have hf := prepare_worker_input_fields c node.config task now channel input md m hm h
  have hr := handle_task_request_routes c node task now channel input md h
  exact ⟨hf.1, hf.2, hr.1, hr.2.1, hr.2.2.1, hr.2.2.2⟩

/-- C5 witness: the concrete gpt-4o task at time 0 resolves to the OpenAI
model, is batchable, lands in `pending_tasks_batch` under its task id and is
sent to the batch lane. -/
theorem C5_witness :
    DriaComputeNode.handle_task_request exCrypto exNode exTask 0 9 =
      ({ exNode with pending_tasks_batch :=
           (mapInsert exNode.pending_tasks_batch "t" exMd) },
       [Effect.workerSend true "t"], Except.ok ()) := by
  have h := C5_batchable_routing exCrypto exNode exTask 0 9 exInput exMd
    Model.GPT4o (by decide) (by decide)
  simpa using h.2.2.1 rfl rfl

/-- C6: `handle_ack` on a heartbeat response: an unknown heartbeat id is an
error with the whole state unchanged; a known id is removed from
`heartbeats_reqs` in every case; a response carrying an error yields that error
without touching `last_heartbeat_at` or `num_heartbeats`; otherwise
`last_heartbeat_at` becomes now and `num_heartbeats` grows by exactly one, for
every `now`, even past the stored deadline. -/
theorem C6_handle_ack_cases (node : DriaComputeNode) (res : HeartbeatResponse)
    (now : Time) :
    (mapFind node.heartbeats_reqs res.heartbeat_id = none →
      HeartbeatRequester.handle_ack node res now =
        (node, Except.error ("Received an unknown heartbeat response with id " ++
          Nat.repr res.heartbeat_id ++ "."))) ∧
    (∀ d, mapFind node.heartbeats_reqs res.heartbeat_id = some d →
      mapFind (HeartbeatRequester.handle_ack node res now).1.heartbeats_reqs
          res.heartbeat_id = none ∧
      (∀ e, res.error = some e →
        HeartbeatRequester.handle_ack node res now =
          ({ node with heartbeats_reqs :=
               mapRemove node.heartbeats_reqs res.heartbeat_id },
           Except.error ("heartbeat was not acknowledged: " ++ e))) ∧
      (res.error = none →
        HeartbeatRequester.handle_ack node res now =
          ({ node with
              heartbeats_reqs := (mapRemove node.heartbeats_reqs res.heartbeat_id),
              last_heartbeat_at := now,
              num_heartbeats := node.num_heartbeats + 1 },
           Except.ok ()))) := by
  refine ⟨fun hnone => ?_, fun d hfind => ⟨?_, fun e he => ?_, fun hnone => ?_⟩⟩
  · simp [HeartbeatRequester.handle_ack, hnone]
  · cases herr : res.error <;>
      simp [HeartbeatRequester.handle_ack, hfind, herr, mapFind_mapRemove]
  · simp [HeartbeatRequester.handle_ack, hfind, he]
  · simp [HeartbeatRequester.handle_ack, hfind, hnone]

/-- C6 witness: acknowledging the outstanding heartbeat (id 5, stored deadline
60) at the late time 200 removes the entry, stamps `last_heartbeat_at = 200`
and bumps `num_heartbeats` to 1. -/
theorem C6_witness :
    HeartbeatRequester.handle_ack exNodeHb
        { heartbeat_id := 5, error := none } 200 =
      ({ exNodeHb with
           heartbeats_reqs := mapRemove exNodeHb.heartbeats_reqs 5,
           last_heartbeat_at := 200, num_heartbeats := 1 },
       Except.ok ()) :=
  ((C6_handle_ack_cases exNodeHb { heartbeat_id := 5, error := none } 200).2
    60 (by decide)).2.2 rfl

/-- C8: against the claim, when the pending map selected by the batchable flag
has no entry for the task id, `send_task_output` still increments the completed
counter of that lane before failing: at the concrete fresh node (empty pending
maps, counters zero), the batch output for task id t returns the
missing-channel error, yet `completed_tasks_batch` has been incremented — the
source bumps the counter before the lookup (reqres.rs lines 174 and 178, each
marked with a TODO saying it should be done on success). -/
theorem C8_counter_incremented_despite_missing_entry :
    (exNode.send_task_output exCrypto exMissingOutput 0).2.2 =
      Except.error "Channel not found for task id: t" ∧
    (exNode.send_task_output exCrypto exMissingOutput 0).1.completed_tasks_batch =
      exNode.completed_tasks_batch + 1 := by
  constructor <;> rfl

/-! ## Lemmas on model names for C10 -/

/-- Converting a model to its name string and back yields the same model. -/
theorem Model.tryFrom_toString (m : Model) :
    Model.tryFrom (Model.toString m) = Except.ok m := by
  cases m <;> rfl

/-- C10: model-name serialisation round-trips: for every model m,
`tryFrom (toString m) = ok m`; for every string naming no variant, `tryFrom`
errors; hence the model-to-name map is injective. -/
theorem C10_model_name_roundtrip :
    (∀ m : Model, Model.tryFrom (Model.toString m) = Except.ok m) ∧
    (∀ s : String, (∀ m : Model, ¬ Model.toString m = s) →
      Model.tryFrom s = Except.error ("Model " ++ s ++ " invalid")) ∧
    (∀ m1 m2 : Model, Model.toString m1 = Model.toString m2 → m1 = m2) := by
  refine ⟨Model.tryFrom_toString, fun s hs => ?_, fun m1 m2 h => ?_⟩
  · unfold Model.tryFrom
    have hnone : Model.all.find? (fun m => decide (Model.toString m = s)) = none := by
      rw [List.find?_eq_none]
      intro m _
      simpa using hs m
    rw [hnone]
  · have h1 := Model.tryFrom_toString m1
    rw [h, Model.tryFrom_toString m2] at h1
    injection h1 with h2
    exact h2.symm

/-- C10 witness: the gpt-4o name round-trips, and a string naming no variant
is rejected. -/
theorem C10_witness :
    Model.tryFrom "gpt-4o" = Except.ok Model.GPT4o ∧
    Model.tryFrom "not-a-model" =
      Except.error ("Model " ++ "not-a-model" ++ " invalid") := by
  constructor
  · exact C10_model_name_roundtrip.1 Model.GPT4o
  · exact C10_model_name_roundtrip.2.1 "not-a-model"
      (fun m => by cases m <;> decide)
